import Mathlib

/-!
Verification of the gdax-client library (Rust) against its specification.

The development shallowly embeds the library's signing engine
(HMAC-SHA256 over a canonical message, base64 transport encoding), the
order encoder, the request-building control flow of the private client,
and the `Side` string codec.  Machine integers are modelled as `Nat`
with explicit reduction modulo 2^32 where the source relies on 32-bit
wraparound; byte strings are `List Nat` of values below 256.
-/

set_option maxRecDepth 100000

namespace Gdax

/-! ## 32-bit word arithmetic (SHA-256 works on 32-bit words) -/

def w32 (n : Nat) : Nat := n % 4294967296

def add32 (a b : Nat) : Nat := (a + b) % 4294967296

/-- Right rotation of a 32-bit word. -/
def rotr (n x : Nat) : Nat := w32 ((x >>> n) ||| (x <<< (32 - n)))

/-! ## SHA-256 (FIPS 180-4), byte-level, big-endian -/

def shaCh (x y z : Nat) : Nat := (x &&& y) ^^^ ((x ^^^ 4294967295) &&& z)

def shaMaj (x y z : Nat) : Nat := (x &&& y) ^^^ (x &&& z) ^^^ (y &&& z)

def bsig0 (x : Nat) : Nat := rotr 2 x ^^^ rotr 13 x ^^^ rotr 22 x

def bsig1 (x : Nat) : Nat := rotr 6 x ^^^ rotr 11 x ^^^ rotr 25 x

def ssig0 (x : Nat) : Nat := rotr 7 x ^^^ rotr 18 x ^^^ (x >>> 3)

def ssig1 (x : Nat) : Nat := rotr 17 x ^^^ rotr 19 x ^^^ (x >>> 10)

/-- The 64 SHA-256 round constants, written in decimal. -/
def shaK : List Nat :=
  [1116352408, 1899447441, 3049323471, 3921009573, 961987163, 1508970993,
   2453635748, 2870763221, 3624381080, 310598401, 607225278, 1426881987,
   1925078388, 2162078206, 2614888103, 3248222580, 3835390401, 4022224774,
   264347078, 604807628, 770255983, 1249150122, 1555081692, 1996064986,
   2554220882, 2821834349, 2952996808, 3210313671, 3336571891, 3584528711,
   113926993, 338241895, 666307205, 773529912, 1294757372, 1396182291,
   1695183700, 1986661051, 2177026350, 2456956037, 2730485921, 2820302411,
   3259730800, 3345764771, 3516065817, 3600352804, 4094571909, 275423344,
   430227734, 506948616, 659060556, 883997877, 958139571, 1322822218,
   1537002063, 1747873779, 1955562222, 2024104815, 2227730452, 2361852424,
   2428436474, 2756734187, 3204031479, 3329325298]

/-- The eight SHA-256 initial hash words, written in decimal. -/
def shaH0 : List Nat :=
  [1779033703, 3144134277, 1013904242, 2773480762, 1359893119, 2600822924,
   528734635, 1541459225]

/-- Big-endian bytes (most significant first) of `n`, `k` bytes wide. -/
def natToBytesBE (k n : Nat) : List Nat :=
  (List.range k).map (fun i => (n >>> (8 * (k - 1 - i))) % 256)

/-- One big-endian 32-bit word from a list of (up to) 4 bytes. -/
def wordOfBytesBE (bs : List Nat) : Nat :=
  bs.foldl (fun acc b => acc * 256 + b) 0

/-- SHA-256 padding: append 0x80, zeros to 56 mod 64, then the 64-bit
big-endian bit length of the original message. -/
def shaPad (msg : List Nat) : List Nat :=
  let len := msg.length
  let zeros := (120 - ((len + 1) % 64)) % 64
  msg ++ [0x80] ++ List.replicate zeros 0 ++ natToBytesBE 8 (len * 8)

/-- The 64-entry message schedule from a 16-word block. -/
def shaSchedule (block : List Nat) : List Nat :=
  ((List.range 64).foldl (fun ws t =>
    if t < 16 then ws.push (block.getD t 0)
    else ws.push (add32 (add32 (ssig1 (ws.getD (t - 2) 0)) (ws.getD (t - 7) 0))
                        (add32 (ssig0 (ws.getD (t - 15) 0)) (ws.getD (t - 16) 0)))) #[]).toList

/-- One SHA-256 round on the 8-word working state. -/
def shaRound (kw : Nat × Nat) (s : List Nat) : List Nat :=
  match s with
  | [a, b, c, d, e, f, g, h] =>
    let t1 := add32 h (add32 (bsig1 e) (add32 (shaCh e f g) (add32 kw.1 kw.2)))
    let t2 := add32 (bsig0 a) (shaMaj a b c)
    [add32 t1 t2, a, b, c, add32 d t1, e, f, g]
  | other => other

/-- Compress one 64-byte block into the running hash state. -/
def shaCompress (hs : List Nat) (block : List Nat) : List Nat :=
  let words := (List.range 16).map (fun i => wordOfBytesBE ((block.drop (4 * i)).take 4))
  let w := shaSchedule words
  let s := (shaK.zip w).foldl (fun st kw => shaRound kw st) hs
  (hs.zip s).map (fun p => add32 p.1 p.2)

/-- SHA-256 of a byte list, as a 32-byte list. -/
def sha256 (msg : List Nat) : List Nat :=
  let padded := shaPad msg
  let nblocks := padded.length / 64
  let final := (List.range nblocks).foldl
    (fun hs i => shaCompress hs ((padded.drop (64 * i)).take 64)) shaH0
  final.foldr (fun h acc => natToBytesBE 4 h ++ acc) []

/-! ## HMAC-SHA256 (as in rust-crypto's `Hmac<Sha256>`, RFC 2104) -/

/-- HMAC-SHA256: block size 64 bytes; a key longer than a block is first
hashed, then zero-padded to 64 bytes; inner pad 0x36, outer pad 0x5c. -/
def hmacSha256 (key msg : List Nat) : List Nat :=
  let k0 := if key.length > 64 then sha256 key else key
  let k1 := k0 ++ List.replicate (64 - k0.length) 0
  let ipad := k1.map (fun b => b ^^^ 0x36)
  let opad := k1.map (fun b => b ^^^ 0x5c)
  sha256 (opad ++ sha256 (ipad ++ msg))

/-! ## Base64 (standard alphabet with `=` padding, as the `base64` crate) -/

def b64Alphabet : List Char :=
  "ABCDEFGHIJKLMNOPQRSTUVWXYZabcdefghijklmnopqrstuvwxyz0123456789+/".data

def b64Char (n : Nat) : Char := b64Alphabet.getD n 'A'

/-- Base64-encode a byte list: groups of 3 bytes become 4 alphabet
characters; a trailing group of 1 or 2 bytes is padded with `=`. -/
def base64EncodeChars : List Nat → List Char
  | [] => []
  | [a] =>
    [b64Char (a >>> 2), b64Char ((a &&& 0x3) <<< 4), '=', '=']
  | [a, b] =>
    [b64Char (a >>> 2), b64Char (((a &&& 0x3) <<< 4) ||| (b >>> 4)),
     b64Char ((b &&& 0xf) <<< 2), '=']
  | a :: b :: c :: rest =>
    b64Char (a >>> 2) :: b64Char (((a &&& 0x3) <<< 4) ||| (b >>> 4)) ::
    b64Char (((b &&& 0xf) <<< 2) ||| (c >>> 6)) :: b64Char (c &&& 0x3f) ::
    base64EncodeChars rest

def base64Encode (bs : List Nat) : String := String.mk (base64EncodeChars bs)

/-- The 6-bit value of a base64 alphabet character, `none` outside the
alphabet. -/
def b64Val (c : Char) : Option Nat :=
  let n := c.toNat
  if 65 ≤ n ∧ n ≤ 90 then some (n - 65)
  else if 97 ≤ n ∧ n ≤ 122 then some (n - 97 + 26)
  else if 48 ≤ n ∧ n ≤ 57 then some (n - 48 + 52)
  else if c = '+' then some 62
  else if c = '/' then some 63
  else none

/-- Base64-decode: groups of 4 characters; `=` padding only at the end;
any character outside the alphabet, or a length not a multiple of 4,
fails. -/
def base64DecodeChars : List Char → Option (List Nat)
  | [] => some []
  | [a, b, '=', '='] => do
    let va ← b64Val a
    let vb ← b64Val b
    pure [(va <<< 2) ||| (vb >>> 4)]
  | [a, b, c, '='] => do
    let va ← b64Val a
    let vb ← b64Val b
    let vc ← b64Val c
    pure [(va <<< 2) ||| (vb >>> 4), ((vb &&& 0xf) <<< 4) ||| (vc >>> 2)]
  | a :: b :: c :: d :: rest => do
    let va ← b64Val a
    let vb ← b64Val b
    let vc ← b64Val c
    let vd ← b64Val d
    let tail ← base64DecodeChars rest
    pure ([(va <<< 2) ||| (vb >>> 4), ((vb &&& 0xf) <<< 4) ||| (vc >>> 2),
           ((vc &&& 0x3) <<< 6) ||| vd] ++ tail)
  | _ => none

def base64Decode (s : String) : Option (List Nat) := base64DecodeChars s.data

/-! ## UTF-8 bytes of a string (Rust's `str::as_bytes`) -/

/-- UTF-8 encoding of one scalar value. -/
def utf8EncodeChar (c : Char) : List Nat :=
  let n := c.toNat
  if n < 0x80 then [n]
  else if n < 0x800 then
    [0xc0 ||| (n >>> 6), 0x80 ||| (n &&& 0x3f)]
  else if n < 0x10000 then
    [0xe0 ||| (n >>> 12), 0x80 ||| ((n >>> 6) &&& 0x3f), 0x80 ||| (n &&& 0x3f)]
  else
    [0xf0 ||| (n >>> 18), 0x80 ||| ((n >>> 12) &&& 0x3f),
     0x80 ||| ((n >>> 6) &&& 0x3f), 0x80 ||| (n &&& 0x3f)]

/-- The UTF-8 byte sequence of a string. -/
def strBytes (s : String) : List Nat := (s.data.map utf8EncodeChar).flatten

/-- Rust's `str::to_uppercase`, modelled as the per-character uppercase
map (they agree on ASCII, which covers all HTTP method names). -/
def strToUpper (s : String) : String := String.mk (s.data.map Char.toUpper)

/-- Rust's `str::to_lowercase`, modelled as the per-character lowercase
map (they agree on ASCII). -/
def strToLower (s : String) : String := String.mk (s.data.map Char.toLower)

/-! ## Error taxonomy (src/lib.rs) -/

/-- `ApiError` from src/lib.rs: the structured body of a non-2xx
response, a single `message` string. -/
structure ApiError where
  message : String
deriving Repr, DecidableEq

/-- `Error` from src/lib.rs.  `Http` carries a hyper error and `Json` a
serde error in the source; the hyper payload is external and opaque, and
a serde error is modelled by its message string.  The
`From<base64::Base64Error>` impl maps every base64 failure to
`InvalidSecretKey`. -/
inductive Error
  | Api (err : ApiError)
  | Http
  | InvalidSecretKey
  | Json (err : String)
deriving Repr, DecidableEq

/-! ## Side and its string codec (src/lib.rs) -/

inductive Side
  | Buy
  | Sell
deriving Repr, DecidableEq

/-- `impl Serialize for Side`: Buy and Sell serialize as the fixed
lowercase strings. -/
def serializeSideStr : Side → String
  | Side.Buy => "buy"
  | Side.Sell => "sell"

/-- `impl Deserialize for Side` (the visitor's `visit_str`): lowercase
the input and match it against "buy" / "sell"; anything else is an
invalid-value error, modelled as `none`. -/
def deserializeSideStr (v : String) : Option Side :=
  match strToLower v with
  | "buy" => some Side.Buy
  | "sell" => some Side.Sell
  | _ => none

/-! ## Order model and encoder (src/private/mod.rs) -/

inductive SizeOrFunds
  | Size (x : Float)
  | Funds (x : Float)

inductive NewOrder
  | Limit (side : Side) (product_id : String) (price size : Float)
  | Market (side : Side) (product_id : String) (size_or_funds : SizeOrFunds)
  | Stop (side : Side) (product_id : String) (price : Float) (size_or_funds : SizeOrFunds)

/-- A JSON value as produced by the order encoder: only strings and
numbers occur in order bodies. -/
inductive JVal
  | str (s : String)
  | num (x : Float)

/-- A JSON object as an ordered field list. -/
abbrev JObj := List (String × JVal)

/-- `impl Serialize for NewOrder`: an exhaustive match over
(order kind × SizeOrFunds) producing one of five concrete shapes, each
mirroring the anonymous helper struct of the corresponding source arm
(field `t` serialized under the name `type`). -/
def serializeNewOrder : NewOrder → JObj
  | NewOrder.Limit side product_id price size =>
    [("type", JVal.str "limit"), ("side", JVal.str (serializeSideStr side)),
     ("product_id", JVal.str product_id), ("price", JVal.num price),
     ("size", JVal.num size)]
  | NewOrder.Market side product_id (SizeOrFunds.Size size) =>
    [("type", JVal.str "market"), ("side", JVal.str (serializeSideStr side)),
     ("product_id", JVal.str product_id), ("size", JVal.num size)]
  | NewOrder.Market side product_id (SizeOrFunds.Funds funds) =>
    [("type", JVal.str "market"), ("side", JVal.str (serializeSideStr side)),
     ("product_id", JVal.str product_id), ("funds", JVal.num funds)]
  | NewOrder.Stop side product_id price (SizeOrFunds.Size size) =>
    [("type", JVal.str "stop"), ("side", JVal.str (serializeSideStr side)),
     ("product_id", JVal.str product_id), ("price", JVal.num price),
     ("size", JVal.num size)]
  | NewOrder.Stop side product_id price (SizeOrFunds.Funds funds) =>
    [("type", JVal.str "stop"), ("side", JVal.str (serializeSideStr side)),
     ("product_id", JVal.str product_id), ("price", JVal.num price),
     ("funds", JVal.num funds)]

/-! ## The private client and its signing engine (src/private/mod.rs) -/

/-- The private `Client`'s credential state.  The source struct also
holds a public client and a hyper `HttpClient`; both are stateless
collaborators (market data / transport) irrelevant to signing and
request building, so only the three credentials are modelled. -/
structure Client where
  key : String
  secret : String
  passphrase : String

def PRIVATE_API_URL : String := "https://api.gdax.com"

/-- `Client::signature`: base64-decode the secret (a failure becomes
`InvalidSecretKey` via the `From` impl and `?`), concatenate
timestamp, uppercased method, path and body with no separators, and
base64-encode the HMAC-SHA256 of that message under the decoded key. -/
def signature (c : Client) (path body timestamp method : String) :
    Except Error String :=
  match base64Decode c.secret with
  | none => Except.error Error.InvalidSecretKey
  | some key =>
    let what := timestamp ++ strToUpper method ++ path ++ body
    Except.ok (base64Encode (hmacSha256 key (strBytes what)))

/-- `Client::get_headers`: read the clock once (`get_time().sec`,
modelled by the `sec` argument), format it as its decimal string, sign
with that exact string, and attach the auth headers carrying the same
signature and timestamp strings. -/
def get_headers (c : Client) (path body method : String) (sec : Int) :
    Except Error (List (String × String)) :=
  let timestamp := toString sec
  match signature c path body timestamp method with
  | Except.error e => Except.error e
  | Except.ok sig =>
    Except.ok
      [("Accept", "application/json"),
       ("User-Agent", "rust-gdax-client/0.1.0"),
       ("CB-ACCESS-KEY", c.key),
       ("CB-ACCESS-SIGN", sig),
       ("CB-ACCESS-PASSPHRASE", c.passphrase),
       ("CB-ACCESS-TIMESTAMP", timestamp)]

/-! ## JSON decoding of the error body -/

/-- Drop leading JSON whitespace. -/
def skipWs : List Char → List Char
  | [] => []
  | c :: cs => if c = ' ' ∨ c = '\n' ∨ c = '\t' ∨ c = '\r' then skipWs cs else c :: cs

/-- Parse the body of a JSON string after its opening quote, returning
the decoded characters and the remainder after the closing quote. -/
def parseStringBody : List Char → Option (List Char × List Char)
  | [] => none
  | '"' :: rest => some ([], rest)
  | '\\' :: e :: rest =>
    match (match e with
           | '"' => some '"'
           | '\\' => some '\\'
           | '/' => some '/'
           | 'n' => some '\n'
           | 't' => some '\t'
           | 'r' => some '\r'
           | _ => none) with
    | none => none
    | some c =>
      match parseStringBody rest with
      | none => none
      | some (s, r) => some (c :: s, r)
  | c :: rest =>
    match parseStringBody rest with
    | none => none
    | some (s, r) => some (c :: s, r)

/-- Modelled from the spec: the serde-derived decoder for `ApiError`
(the serde library is an external collaborator outside src/); §6 gives
the error response shape as the object `\x7b"message": string\x7d`.
Accepts exactly that object, with JSON whitespace; anything else is a
decode error carrying a message, as `serde_json::Error` does. -/
def decodeApiError (body : String) : Except String ApiError :=
  match skipWs body.data with
  | '{' :: r0 =>
    match skipWs r0 with
    | '"' :: kr =>
      match parseStringBody kr with
      | none => Except.error "invalid key string"
      | some (k, r1) =>
        if String.mk k = "message" then
          match skipWs r1 with
          | ':' :: r2 =>
            match skipWs r2 with
            | '"' :: vr =>
              match parseStringBody vr with
              | none => Except.error "invalid value string"
              | some (v, r3) =>
                match skipWs r3 with
                | '}' :: r4 =>
                  if skipWs r4 = [] then Except.ok ⟨String.mk v⟩
                  else Except.error "trailing characters"
                | _ => Except.error "expected end of object"
            | _ => Except.error "expected string value"
          | _ => Except.error "expected colon"
        else Except.error "unknown field"
    | _ => Except.error "expected object key"
  | _ => Except.error "expected an object"

/-! ## Request primitives (GET / POST / DELETE and decode)

The HTTP transport is an external collaborator.  It is modelled by a
list of responses the network will serve, in order; each primitive
returns its result together with the list of requests it actually sent
and the responses left unconsumed, so that "sent before/at-most-once /
never" is a provable statement. -/

structure HttpRequest where
  method : String
  url : String
  body : String
  headers : List (String × String)
deriving Repr, DecidableEq

structure HttpResponse where
  status : Nat
  body : String
deriving Repr, DecidableEq

/-- hyper's `StatusCode::is_success`: the 2xx class. -/
def statusIsSuccess (s : Nat) : Bool := 200 ≤ s && s < 300

/-- `Client::get_and_decode`: sign with empty body, GET the path, and on
non-success status decode the body as `ApiError` (surfaced as `Api`,
with the decoder's own failure surfaced as `Json` via `?`); on success
decode the body as the target type (`decT` models the serde decoder). -/
def get_and_decode (decT : String → Except String α) (c : Client) (path : String)
    (sec : Int) (transport : List HttpResponse) :
    Except Error α × List HttpRequest × List HttpResponse :=
  match get_headers c path "" "GET" sec with
  | Except.error e => (Except.error e, [], transport)
  | Except.ok headers =>
    let req : HttpRequest := ⟨"GET", PRIVATE_API_URL ++ path, "", headers⟩
    match transport with
    | [] => (Except.error Error.Http, [req], [])
    | res :: rest =>
      if ¬ statusIsSuccess res.status then
        match decodeApiError res.body with
        | Except.ok e => (Except.error (Error.Api e), [req], rest)
        | Except.error j => (Except.error (Error.Json j), [req], rest)
      else
        match decT res.body with
        | Except.ok v => (Except.ok v, [req], rest)
        | Except.error j => (Except.error (Error.Json j), [req], rest)

/-- `Client::post_and_decode`: sign over the exact body string that is
sent, POST it with a JSON content type, and decode as in
`get_and_decode`. -/
def post_and_decode (decT : String → Except String α) (c : Client) (path body : String)
    (sec : Int) (transport : List HttpResponse) :
    Except Error α × List HttpRequest × List HttpResponse :=
  match get_headers c path body "POST" sec with
  | Except.error e => (Except.error e, [], transport)
  | Except.ok headers =>
    let req : HttpRequest :=
      ⟨"POST", PRIVATE_API_URL ++ path, body,
       headers ++ [("Content-Type", "application/json")]⟩
    match transport with
    | [] => (Except.error Error.Http, [req], [])
    | res :: rest =>
      if ¬ statusIsSuccess res.status then
        match decodeApiError res.body with
        | Except.ok e => (Except.error (Error.Api e), [req], rest)
        | Except.error j => (Except.error (Error.Json j), [req], rest)
      else
        match decT res.body with
        | Except.ok v => (Except.ok v, [req], rest)
        | Except.error j => (Except.error (Error.Json j), [req], rest)

/-- `Client::delete_and_decode`: sign with empty body, DELETE the path,
and decode as in `get_and_decode`. -/
def delete_and_decode (decT : String → Except String α) (c : Client) (path : String)
    (sec : Int) (transport : List HttpResponse) :
    Except Error α × List HttpRequest × List HttpResponse :=
  match get_headers c path "" "DELETE" sec with
  | Except.error e => (Except.error e, [], transport)
  | Except.ok headers =>
    let req : HttpRequest := ⟨"DELETE", PRIVATE_API_URL ++ path, "", headers⟩
    match transport with
    | [] => (Except.error Error.Http, [req], [])
    | res :: rest =>
      if ¬ statusIsSuccess res.status then
        match decodeApiError res.body with
        | Except.ok e => (Except.error (Error.Api e), [req], rest)
        | Except.error j => (Except.error (Error.Json j), [req], rest)
      else
        match decT res.body with
        | Except.ok v => (Except.ok v, [req], rest)
        | Except.error j => (Except.error (Error.Json j), [req], rest)

/-! ## Order-listing endpoints (src/private/mod.rs) -/

/-- The local `status` string of `Client::get_orders_with_status`: zip
the three flags with the three `status=` terms in fixed order, keep the
terms whose flag is true, and join with `&`. -/
def ordersStatusQuery (flagOpen pending active : Bool) : String :=
  String.intercalate "&"
    ((([flagOpen, pending, active].zip
        ["status=open", "status=pending", "status=active"]).filter
          (fun p => p.1)).map (fun p => p.2))

/-- The path `Client::get_orders_with_status` requests:
`format!("/orders?\x7b\x7d", status)`. -/
def get_orders_with_status_path (flagOpen pending active : Bool) : String :=
  "/orders?" ++ ordersStatusQuery flagOpen pending active

/-- `Client::get_orders_with_status` as a full request. -/
def get_orders_with_status (decT : String → Except String α) (c : Client)
    (flagOpen pending active : Bool) (sec : Int) (transport : List HttpResponse) :
    Except Error α × List HttpRequest × List HttpResponse :=
  get_and_decode decT c (get_orders_with_status_path flagOpen pending active) sec transport

/-- `Client::get_orders`: delegates to `get_orders_with_status` with all
three flags true. -/
def get_orders (decT : String → Except String α) (c : Client) (sec : Int)
    (transport : List HttpResponse) :
    Except Error α × List HttpRequest × List HttpResponse :=
  get_orders_with_status decT c true true true sec transport

/-! ## Claim theorems -/

/-- Helper: with a base64-valid secret, `get_headers` succeeds and its
header list is fully determined by the credentials, the request data and
the clock reading. -/
theorem get_headers_ok (c : Client) (path body method : String) (sec : Int)
    (key : List Nat) (h : base64Decode c.secret = some key) :
    get_headers c path body method sec =
      Except.ok
        [("Accept", "application/json"),
         ("User-Agent", "rust-gdax-client/0.1.0"),
         ("CB-ACCESS-KEY", c.key),
         ("CB-ACCESS-SIGN", base64Encode (hmacSha256 key
            (strBytes (toString sec ++ strToUpper method ++ path ++ body)))),
         ("CB-ACCESS-PASSPHRASE", c.passphrase),
         ("CB-ACCESS-TIMESTAMP", toString sec)] := by
  unfold get_headers signature
  rw [h]

/-- Claim C1: for every base64-valid secret, `Client::signature` returns
base64(HMAC-SHA256(key = base64-decoded secret, message = timestamp ++
uppercase(method) ++ path ++ body)), the four parts concatenated with no
separators; and on the golden vector (secret "c2VjcmV0", GET /accounts,
empty body, timestamp "1500000000") it equals the precomputed reference
value. -/
theorem signature_is_base64_hmac (c : Client) (path body timestamp method : String)
    (key : List Nat) (h : base64Decode c.secret = some key) :
    signature c path body timestamp method =
      Except.ok (base64Encode (hmacSha256 key
        (strBytes (timestamp ++ strToUpper method ++ path ++ body))))
    ∧ signature ⟨"my-key", "c2VjcmV0", "my-pass"⟩ "/accounts" "" "1500000000" "GET" =
      Except.ok "K11xy9WGolg6AP9KphBgTYFo9wZOR6ZX3FiU0odKwq4=" := by
  refine ⟨?_, rfl⟩
  unfold signature
  rw [h]

theorem signature_is_base64_hmac_witness :
    base64Decode "c2VjcmV0" = some [115, 101, 99, 114, 101, 116] ∧
    signature ⟨"my-key", "c2VjcmV0", "my-pass"⟩ "/orders" "[]" "42" "get" =
      Except.ok (base64Encode (hmacSha256 [115, 101, 99, 114, 101, 116]
        (strBytes ("42" ++ strToUpper "get" ++ "/orders" ++ "[]")))) :=
  ⟨by decide,
   (signature_is_base64_hmac ⟨"my-key", "c2VjcmV0", "my-pass"⟩ "/orders" "[]" "42" "get"
      [115, 101, 99, 114, 101, 116] (by decide)).1⟩

/-- Claim C2: the order encoder always emits a `type` discriminator
("limit" / "market" / "stop" by variant), emits exactly one of `size` or
`funds` for Market and Stop as selected by the `SizeOrFunds`
discriminant, and produces one of five concrete shapes. -/
theorem new_order_wire_shape (o : NewOrder) :
    ((serializeNewOrder o).lookup "type" =
      some (JVal.str (match o with
        | NewOrder.Limit _ _ _ _ => "limit"
        | NewOrder.Market _ _ _ => "market"
        | NewOrder.Stop _ _ _ _ => "stop")))
  ∧ (match o with
     | NewOrder.Limit _ _ _ _ => True
     | NewOrder.Market _ _ sof =>
       match sof with
       | SizeOrFunds.Size _ =>
         "size" ∈ (serializeNewOrder o).map Prod.fst ∧
         "funds" ∉ (serializeNewOrder o).map Prod.fst
       | SizeOrFunds.Funds _ =>
         "funds" ∈ (serializeNewOrder o).map Prod.fst ∧
         "size" ∉ (serializeNewOrder o).map Prod.fst
     | NewOrder.Stop _ _ _ sof =>
       match sof with
       | SizeOrFunds.Size _ =>
         "size" ∈ (serializeNewOrder o).map Prod.fst ∧
         "funds" ∉ (serializeNewOrder o).map Prod.fst
       | SizeOrFunds.Funds _ =>
         "funds" ∈ (serializeNewOrder o).map Prod.fst ∧
         "size" ∉ (serializeNewOrder o).map Prod.fst)
  ∧ (((serializeNewOrder o).lookup "type" = some (JVal.str "limit") ∧
        (serializeNewOrder o).map Prod.fst = ["type", "side", "product_id", "price", "size"])
     ∨ ((serializeNewOrder o).lookup "type" = some (JVal.str "market") ∧
        (serializeNewOrder o).map Prod.fst = ["type", "side", "product_id", "size"])
     ∨ ((serializeNewOrder o).lookup "type" = some (JVal.str "market") ∧
        (serializeNewOrder o).map Prod.fst = ["type", "side", "product_id", "funds"])
     ∨ ((serializeNewOrder o).lookup "type" = some (JVal.str "stop") ∧
        (serializeNewOrder o).map Prod.fst = ["type", "side", "product_id", "price", "size"])
     ∨ ((serializeNewOrder o).lookup "type" = some (JVal.str "stop") ∧
        (serializeNewOrder o).map Prod.fst = ["type", "side", "product_id", "price", "funds"])) := by
  cases o with
  | Limit side pid price size => simp [serializeNewOrder]
  | Market side pid sof => cases sof <;> simp [serializeNewOrder]
  | Stop side pid price sof => cases sof <;> simp [serializeNewOrder]

/-- Claim C3: through each of the GET, POST and DELETE primitives, a
non-success HTTP status makes the body be decoded as the structured API
error and surfaced as the `Api` variant carrying its message; a body
that itself fails to decode surfaces as a `Json` decode error; in all
cases exactly one request is sent and exactly one response consumed (no
retry, no panic). -/
theorem error_status_surfaces_api_error (decT : String → Except String α)
    (c : Client) (path body : String) (sec : Int)
    (res : HttpResponse) (rest : List HttpResponse) (key : List Nat)
    (hkey : base64Decode c.secret = some key)
    (hstatus : statusIsSuccess res.status = false) :
    (∀ e, decodeApiError res.body = Except.ok e →
      (get_and_decode decT c path sec (res :: rest)).1 = Except.error (Error.Api e) ∧
      (get_and_decode decT c path sec (res :: rest)).2.1.length = 1 ∧
      (get_and_decode decT c path sec (res :: rest)).2.2 = rest ∧
      (post_and_decode decT c path body sec (res :: rest)).1 = Except.error (Error.Api e) ∧
      (post_and_decode decT c path body sec (res :: rest)).2.1.length = 1 ∧
      (post_and_decode decT c path body sec (res :: rest)).2.2 = rest ∧
      (delete_and_decode decT c path sec (res :: rest)).1 = Except.error (Error.Api e) ∧
      (delete_and_decode decT c path sec (res :: rest)).2.1.length = 1 ∧
      (delete_and_decode decT c path sec (res :: rest)).2.2 = rest)
  ∧ (∀ j, decodeApiError res.body = Except.error j →
      (get_and_decode decT c path sec (res :: rest)).1 = Except.error (Error.Json j) ∧
      (get_and_decode decT c path sec (res :: rest)).2.1.length = 1 ∧
      (get_and_decode decT c path sec (res :: rest)).2.2 = rest ∧
      (post_and_decode decT c path body sec (res :: rest)).1 = Except.error (Error.Json j) ∧
      (post_and_decode decT c path body sec (res :: rest)).2.1.length = 1 ∧
      (post_and_decode decT c path body sec (res :: rest)).2.2 = rest ∧
      (delete_and_decode decT c path sec (res :: rest)).1 = Except.error (Error.Json j) ∧
      (delete_and_decode decT c path sec (res :: rest)).2.1.length = 1 ∧
      (delete_and_decode decT c path sec (res :: rest)).2.2 = rest) := by
  have hg := get_headers_ok c path "" "GET" sec key hkey
  have hp := get_headers_ok c path body "POST" sec key hkey
  have hd := get_headers_ok c path "" "DELETE" sec key hkey
  constructor
  · intro e he
    unfold get_and_decode post_and_decode delete_and_decode
    rw [hg, hp, hd]
    simp [hstatus, he]
  · intro j hj
    unfold get_and_decode post_and_decode delete_and_decode
    rw [hg, hp, hd]
    simp [hstatus, hj]

theorem error_status_surfaces_api_error_witness :
    statusIsSuccess 400 = false ∧
    decodeApiError "\x7b\"message\":\"Insufficient funds\"\x7d" =
      Except.ok ⟨"Insufficient funds"⟩ ∧
    (get_and_decode (fun _ => (Except.error "unused" : Except String Unit))
        ⟨"k", "c2VjcmV0", "p"⟩ "/orders" 1500000000
        [⟨400, "\x7b\"message\":\"Insufficient funds\"\x7d"⟩]).1 =
      Except.error (Error.Api ⟨"Insufficient funds"⟩) ∧
    (post_and_decode (fun _ => (Except.error "unused" : Except String Unit))
        ⟨"k", "c2VjcmV0", "p"⟩ "/orders" "\x7b\x7d" 1500000000
        [⟨400, "\x7b\"message\":\"Insufficient funds\"\x7d"⟩]).1 =
      Except.error (Error.Api ⟨"Insufficient funds"⟩) ∧
    (delete_and_decode (fun _ => (Except.error "unused" : Except String Unit))
        ⟨"k", "c2VjcmV0", "p"⟩ "/orders" 1500000000
        [⟨400, "\x7b\"message\":\"Insufficient funds\"\x7d"⟩]).1 =
      Except.error (Error.Api ⟨"Insufficient funds"⟩) :=
  ⟨by decide, rfl,
   ((error_status_surfaces_api_error (fun _ => (Except.error "unused" : Except String Unit))
       ⟨"k", "c2VjcmV0", "p"⟩ "/orders" "\x7b\x7d" 1500000000
       ⟨400, "\x7b\"message\":\"Insufficient funds\"\x7d"⟩ []
       [115, 101, 99, 114, 101, 116] (by decide) (by decide)).1
     ⟨"Insufficient funds"⟩ rfl).1,
   ((error_status_surfaces_api_error (fun _ => (Except.error "unused" : Except String Unit))
       ⟨"k", "c2VjcmV0", "p"⟩ "/orders" "\x7b\x7d" 1500000000
       ⟨400, "\x7b\"message\":\"Insufficient funds\"\x7d"⟩ []
       [115, 101, 99, 114, 101, 116] (by decide) (by decide)).1
     ⟨"Insufficient funds"⟩ rfl).2.2.2.1,
   ((error_status_surfaces_api_error (fun _ => (Except.error "unused" : Except String Unit))
       ⟨"k", "c2VjcmV0", "p"⟩ "/orders" "\x7b\x7d" 1500000000
       ⟨400, "\x7b\"message\":\"Insufficient funds\"\x7d"⟩ []
       [115, 101, 99, 114, 101, 116] (by decide) (by decide)).1
     ⟨"Insufficient funds"⟩ rfl).2.2.2.2.2.2.1⟩

/-- Claim C4: `get_orders_with_status` builds the query string containing
exactly the `status=` terms of the true flags, in the fixed order open,
pending, active, joined by `&`; in particular (true, false, true) gives
exactly `status=open&status=active`. -/
theorem orders_status_query_terms (flagOpen pending active : Bool) :
    ordersStatusQuery flagOpen pending active =
      String.intercalate "&"
        ((if flagOpen then ["status=open"] else []) ++
         (if pending then ["status=pending"] else []) ++
         (if active then ["status=active"] else []))
    ∧ ordersStatusQuery true false true = "status=open&status=active" := by
  refine ⟨?_, by decide⟩
  cases flagOpen <;> cases pending <;> cases active <;> decide

/-- Claim C5: with all three flags false the source still sends the path
with a trailing `?` and empty query (`/orders?`), not the bare `/orders`
the specification decides on. -/
theorem all_flags_false_sends_trailing_question_mark :
    get_orders_with_status_path false false false = "/orders?" ∧
    get_orders_with_status_path false false false ≠ "/orders" := by decide

/-- Claim C6: when the client's secret is not valid base64, each private
primitive fails with `InvalidSecretKey`, sends no HTTP request at all
(empty sent list, transport untouched), and does not retry. -/
theorem invalid_secret_fails_before_send (decT : String → Except String α)
    (c : Client) (path body : String) (sec : Int) (transport : List HttpResponse)
    (h : base64Decode c.secret = none) :
    get_and_decode decT c path sec transport =
      (Except.error Error.InvalidSecretKey, [], transport)
  ∧ post_and_decode decT c path body sec transport =
      (Except.error Error.InvalidSecretKey, [], transport)
  ∧ delete_and_decode decT c path sec transport =
      (Except.error Error.InvalidSecretKey, [], transport) := by
  unfold get_and_decode post_and_decode delete_and_decode get_headers signature
  rw [h]
  exact ⟨rfl, rfl, rfl⟩

theorem invalid_secret_fails_before_send_witness :
    base64Decode "!!!" = none ∧
    get_and_decode (fun _ => (Except.error "unused" : Except String Unit))
        ⟨"k", "!!!", "p"⟩ "/accounts" 0 [⟨200, "[]"⟩] =
      (Except.error Error.InvalidSecretKey, [], [⟨200, "[]"⟩]) ∧
    post_and_decode (fun _ => (Except.error "unused" : Except String Unit))
        ⟨"k", "!!!", "p"⟩ "/orders" "\x7b\x7d" 0 [⟨200, "[]"⟩] =
      (Except.error Error.InvalidSecretKey, [], [⟨200, "[]"⟩]) :=
  ⟨by decide,
   (invalid_secret_fails_before_send (fun _ => (Except.error "unused" : Except String Unit))
      ⟨"k", "!!!", "p"⟩ "/accounts" "\x7b\x7d" 0 [⟨200, "[]"⟩] (by decide)).1,
   (invalid_secret_fails_before_send (fun _ => (Except.error "unused" : Except String Unit))
      ⟨"k", "!!!", "p"⟩ "/orders" "\x7b\x7d" 0 [⟨200, "[]"⟩] (by decide)).2.1⟩

/-- Claim C7: `get_headers` reads the clock once per call (the `sec`
argument models that single `get_time().sec` reading), formats it as the
decimal string of integer seconds, feeds that exact string into the
signature message, and sends the very same string as the
CB-ACCESS-TIMESTAMP header — byte-identical between the two uses, and
fresh on every call because it is a function of the per-call reading. -/
theorem timestamp_signed_equals_timestamp_sent (c : Client)
    (path body method : String) (sec : Int) (key : List Nat)
    (h : base64Decode c.secret = some key) :
    get_headers c path body method sec =
      Except.ok
        [("Accept", "application/json"),
         ("User-Agent", "rust-gdax-client/0.1.0"),
         ("CB-ACCESS-KEY", c.key),
         ("CB-ACCESS-SIGN", base64Encode (hmacSha256 key
            (strBytes (toString sec ++ strToUpper method ++ path ++ body)))),
         ("CB-ACCESS-PASSPHRASE", c.passphrase),
         ("CB-ACCESS-TIMESTAMP", toString sec)] :=
  get_headers_ok c path body method sec key h

theorem timestamp_signed_equals_timestamp_sent_witness :
    base64Decode "c2VjcmV0" = some [115, 101, 99, 114, 101, 116] ∧
    get_headers ⟨"api-key", "c2VjcmV0", "phrase"⟩ "/accounts" "" "GET" 1500000000 =
      Except.ok
        [("Accept", "application/json"),
         ("User-Agent", "rust-gdax-client/0.1.0"),
         ("CB-ACCESS-KEY", "api-key"),
         ("CB-ACCESS-SIGN", "K11xy9WGolg6AP9KphBgTYFo9wZOR6ZX3FiU0odKwq4="),
         ("CB-ACCESS-PASSPHRASE", "phrase"),
         ("CB-ACCESS-TIMESTAMP", "1500000000")] :=
  ⟨by decide,
   timestamp_signed_equals_timestamp_sent ⟨"api-key", "c2VjcmV0", "phrase"⟩
     "/accounts" "" "GET" 1500000000 [115, 101, 99, 114, 101, 116] (by decide)⟩

/-- Claim C8: GET and DELETE requests carry no body; the payload signed
for them is the empty string (the message's body component is `""`), so
the signature input and the sent body agree byte-for-byte — the request
each primitive sends has body `""` and its CB-ACCESS-SIGN is computed
over a message ending in the empty body. -/
theorem get_delete_sign_empty_body (decT : String → Except String α)
    (c : Client) (path : String) (sec : Int) (transport : List HttpResponse)
    (key : List Nat) (h : base64Decode c.secret = some key) :
    (get_and_decode decT c path sec transport).2.1 =
      [⟨"GET", PRIVATE_API_URL ++ path, "",
        [("Accept", "application/json"),
         ("User-Agent", "rust-gdax-client/0.1.0"),
         ("CB-ACCESS-KEY", c.key),
         ("CB-ACCESS-SIGN", base64Encode (hmacSha256 key
            (strBytes (toString sec ++ strToUpper "GET" ++ path ++ "")))),
         ("CB-ACCESS-PASSPHRASE", c.passphrase),
         ("CB-ACCESS-TIMESTAMP", toString sec)]⟩]
  ∧ (delete_and_decode decT c path sec transport).2.1 =
      [⟨"DELETE", PRIVATE_API_URL ++ path, "",
        [("Accept", "application/json"),
         ("User-Agent", "rust-gdax-client/0.1.0"),
         ("CB-ACCESS-KEY", c.key),
         ("CB-ACCESS-SIGN", base64Encode (hmacSha256 key
            (strBytes (toString sec ++ strToUpper "DELETE" ++ path ++ "")))),
         ("CB-ACCESS-PASSPHRASE", c.passphrase),
         ("CB-ACCESS-TIMESTAMP", toString sec)]⟩] := by
  constructor
  · unfold get_and_decode
    rw [get_headers_ok c path "" "GET" sec key h]
    cases transport with
    | nil => rfl
    | cons res rest =>
      dsimp only
      split <;> split <;> rfl
  · unfold delete_and_decode
    rw [get_headers_ok c path "" "DELETE" sec key h]
    cases transport with
    | nil => rfl
    | cons res rest =>
      dsimp only
      split <;> split <;> rfl

theorem get_delete_sign_empty_body_witness :
    (get_and_decode (fun _ => (Except.error "unused" : Except String Unit))
        ⟨"api-key", "c2VjcmV0", "phrase"⟩ "/accounts" 1500000000 []).2.1 =
      [⟨"GET", PRIVATE_API_URL ++ "/accounts", "",
        [("Accept", "application/json"),
         ("User-Agent", "rust-gdax-client/0.1.0"),
         ("CB-ACCESS-KEY", "api-key"),
         ("CB-ACCESS-SIGN", base64Encode (hmacSha256 [115, 101, 99, 114, 101, 116]
            (strBytes (toString (1500000000 : Int) ++ strToUpper "GET" ++ "/accounts" ++ "")))),
         ("CB-ACCESS-PASSPHRASE", "phrase"),
         ("CB-ACCESS-TIMESTAMP", toString (1500000000 : Int))]⟩] :=
  (get_delete_sign_empty_body (fun _ => (Except.error "unused" : Except String Unit))
     ⟨"api-key", "c2VjcmV0", "phrase"⟩ "/accounts" 1500000000 []
     [115, 101, 99, 114, 101, 116] (by decide)).1

/-- Claim C9: `Side` decoding lowercases its input first, so every case
variant of "buy" decodes to Buy and every case variant of "sell" to
Sell, any other string fails to decode, encoding always produces the
fixed lowercase strings, and decode ∘ encode is the identity. -/
theorem side_codec_case_insensitive (s : String) (sd : Side) :
    (strToLower s = "buy" → deserializeSideStr s = some Side.Buy)
  ∧ (strToLower s = "sell" → deserializeSideStr s = some Side.Sell)
  ∧ (strToLower s ≠ "buy" → strToLower s ≠ "sell" → deserializeSideStr s = none)
  ∧ serializeSideStr Side.Buy = "buy"
  ∧ serializeSideStr Side.Sell = "sell"
  ∧ deserializeSideStr (serializeSideStr sd) = some sd := by
  refine ⟨?_, ?_, ?_, rfl, rfl, ?_⟩
  · intro h
    unfold deserializeSideStr
    rw [h]
    decide
  · intro h
    unfold deserializeSideStr
    rw [h]
    decide
  · intro h1 h2
    unfold deserializeSideStr
    split
    · exact absurd (by assumption) h1
    · exact absurd (by assumption) h2
    · rfl
  · cases sd <;> decide

theorem side_codec_case_insensitive_witness :
    deserializeSideStr "BUY" = some Side.Buy ∧
    deserializeSideStr "Sell" = some Side.Sell ∧
    deserializeSideStr "hold" = none ∧
    deserializeSideStr (serializeSideStr Side.Buy) = some Side.Buy :=
  ⟨(side_codec_case_insensitive "BUY" Side.Buy).1 (by decide),
   (side_codec_case_insensitive "Sell" Side.Buy).2.1 (by decide),
   (side_codec_case_insensitive "hold" Side.Buy).2.2.1 (by decide) (by decide),
   (side_codec_case_insensitive "anything" Side.Buy).2.2.2.2.2⟩

/-- Claim C10: `get_orders` behaves exactly as `get_orders_with_status`
with all three flags true, and therefore always requests the path
`/orders?status=open&status=pending&status=active`. -/
theorem get_orders_filters_all_three_statuses (decT : String → Except String α)
    (c : Client) (sec : Int) (transport : List HttpResponse) :
    get_orders decT c sec transport = get_orders_with_status decT c true true true sec transport
  ∧ get_orders_with_status_path true true true =
      "/orders?status=open&status=pending&status=active"
  ∧ get_orders decT c sec transport =
      get_and_decode decT c "/orders?status=open&status=pending&status=active" sec transport := by
  have hp : get_orders_with_status_path true true true =
      "/orders?status=open&status=pending&status=active" := by decide
  refine ⟨rfl, hp, ?_⟩
  unfold get_orders get_orders_with_status
  rw [hp]

end Gdax
